import Mathlib

/-!
Shallow embedding of the credential/session subsystem of the
Guizzs26/personal-blog Go backend, together with theorems settling the
frozen claims about it.

The embedding follows the Go sources:
  * pkg/jwtx/refresh.go        : refresh-token generation and SHA-256 hashing
  * pkg/jwtx/jwt.go            : access-token issuance (HMAC signing is an
                                 external library, modelled as an opaque
                                 injective encoding plus a failure flag)
  * pkg/hashx/hash.go          : bcrypt generate/compare (bcrypt itself is an
                                 external library, modelled from the spec)
  * internal/modules/identity/repository/refresh_token_repository.go
  * the PostgresUserRepository (src/unnamed/part_015)
  * internal/modules/identity/service/auth_service.go
  * internal/modules/identity/service/github_auth_service.go

Machine integers are modelled as Nat reduced mod 2^32 where the Go code uses
uint32 (inside SHA-256); timestamps are modelled as Int (seconds); database
state is explicit and threaded through every operation.
-/

namespace PersonalBlog

set_option maxRecDepth 100000

/-! ## SHA-256 (Go crypto/sha256), over byte lists -/

/-- Truncate to a 32-bit word, as Go uint32 arithmetic does on overflow. -/
def w32 (n : Nat) : Nat := n % 4294967296

/-- 32-bit addition mod 2^32. -/
def add32 (a b : Nat) : Nat := (a + b) % 4294967296

/-- 32-bit right rotation. -/
def rotr32 (x n : Nat) : Nat := w32 ((x >>> n) ||| (x <<< (32 - n)))

/-- SHA-256 small sigma 0: rotr 7 xor rotr 18 xor shr 3. -/
def ssig0 (x : Nat) : Nat := (rotr32 x 7) ^^^ (rotr32 x 18) ^^^ (x >>> 3)

/-- SHA-256 small sigma 1: rotr 17 xor rotr 19 xor shr 10. -/
def ssig1 (x : Nat) : Nat := (rotr32 x 17) ^^^ (rotr32 x 19) ^^^ (x >>> 10)

/-- SHA-256 big Sigma 0. -/
def bsig0 (x : Nat) : Nat := (rotr32 x 2) ^^^ (rotr32 x 13) ^^^ (rotr32 x 22)

/-- SHA-256 big Sigma 1. -/
def bsig1 (x : Nat) : Nat := (rotr32 x 6) ^^^ (rotr32 x 11) ^^^ (rotr32 x 25)

/-- SHA-256 choice function; the 32-bit complement of x is x xor 0xffffffff. -/
def chF (x y z : Nat) : Nat := (x &&& y) ^^^ ((x ^^^ 4294967295) &&& z)

/-- SHA-256 majority function. -/
def majF (x y z : Nat) : Nat := (x &&& y) ^^^ (x &&& z) ^^^ (y &&& z)

/-- The 64 SHA-256 round constants of FIPS 180-4, written in decimal. -/
def sha256K : List Nat :=
  [1116352408, 1899447441, 3049323471, 3921009573, 961987163,
   1508970993, 2453635748, 2870763221, 3624381080, 310598401,
   607225278, 1426881987, 1925078388, 2162078206, 2614888103,
   3248222580, 3835390401, 4022224774, 264347078, 604807628,
   770255983, 1249150122, 1555081692, 1996064986, 2554220882,
   2821834349, 2952996808, 3210313671, 3336571891, 3584528711,
   113926993, 338241895, 666307205, 773529912, 1294757372,
   1396182291, 1695183700, 1986661051, 2177026350, 2456956037,
   2730485921, 2820302411, 3259730800, 3345764771, 3516065817,
   3600352804, 4094571909, 275423344, 430227734, 506948616,
   659060556, 883997877, 958139571, 1322822218, 1537002063,
   1747873779, 1955562222, 2024104815, 2227730452, 2361852424,
   2428436474, 2756734187, 3204031479, 3329325298]

/-- The SHA-256 initial hash value of FIPS 180-4, written in decimal. -/
def sha256H0 : List Nat :=
  [1779033703, 3144134277, 1013904242, 2773480762,
   1359893119, 2600822924, 528734635, 1541459225]

/-- Big-endian byte encoding of a value into a fixed number of bytes. -/
def beBytes : Nat → Nat → List Nat
  | 0, _ => []
  | w + 1, v => beBytes w (v / 256) ++ [v % 256]

/-- Group bytes four at a time into big-endian 32-bit words. -/
def bytesToWords : List Nat → List Nat
  | a :: b :: c :: d :: rest =>
      (a * 16777216 + b * 65536 + c * 256 + d) :: bytesToWords rest
  | _ => []

/-- Message-schedule extension: append n further words, each computed from
the words 2, 7, 15 and 16 positions back. -/
def extendSched (w : List Nat) : Nat → List Nat
  | 0 => w
  | n + 1 =>
      let t := w.length
      let nw := add32 (add32 (ssig1 (w.getD (t - 2) 0)) (w.getD (t - 7) 0))
                      (add32 (ssig0 (w.getD (t - 15) 0)) (w.getD (t - 16) 0))
      extendSched (w ++ [nw]) n

/-- One SHA-256 round step on the eight-word working state. -/
def sha256Round (st : List Nat) (kw : Nat × Nat) : List Nat :=
  match st with
  | [a, b, c, d, e, f, g, h] =>
      let t1 := add32 (add32 (add32 h (bsig1 e)) (add32 (chF e f g) kw.1)) kw.2
      let t2 := add32 (bsig0 a) (majF a b c)
      [add32 t1 t2, a, b, c, add32 d t1, e, f, g]
  | other => other

/-- Compress one 64-byte block into the running hash value. -/
def sha256Compress (hs : List Nat) (block : List Nat) : List Nat :=
  let w := extendSched (bytesToWords block) 48
  let fin := (sha256K.zip w).foldl sha256Round hs
  List.zipWith add32 hs fin

/-- Iterate the compression function over consecutive 64-byte blocks. -/
def sha256Iter : Nat → List Nat → List Nat → List Nat
  | 0, hs, _ => hs
  | n + 1, hs, bytes => sha256Iter n (sha256Compress hs (bytes.take 64)) (bytes.drop 64)

/-- SHA-256 padding: a 0x80 byte, zeros, and the 64-bit big-endian bit length,
reaching a multiple of 64 bytes. -/
def padMsg (ms : List Nat) : List Nat :=
  let l := ms.length
  let k := (64 - ((l + 9) % 64)) % 64
  ms ++ [0x80] ++ List.replicate k 0 ++ beBytes 8 (8 * l)

/-- SHA-256 of a byte list, as 32 digest bytes. -/
def sha256 (ms : List Nat) : List Nat :=
  let p := padMsg ms
  let hs := sha256Iter (p.length / 64) sha256H0 p
  hs.foldr (fun w acc => beBytes 4 w ++ acc) []

/-! ## Hex encoding (Go encoding/hex, lowercase) and UTF-8 bytes of a string -/

/-- Lowercase hex digit for a value below 16. -/
def hexDigit (n : Nat) : Char :=
  if n < 10 then Char.ofNat (48 + n) else Char.ofNat (87 + n)

/-- Two lowercase hex digits of one byte. -/
def byteToHex (b : Nat) : List Char := [hexDigit (b / 16), hexDigit (b % 16)]

/-- Lowercase hex string of a byte list, as hex.EncodeToString produces. -/
def bytesToHex (bs : List Nat) : String :=
  String.mk (bs.foldr (fun b acc => byteToHex b ++ acc) [])

/-- UTF-8 encoding of one character. -/
def utf8Bytes (c : Char) : List Nat :=
  let n := c.toNat
  if n < 128 then [n]
  else if n < 2048 then [192 + n / 64, 128 + n % 64]
  else if n < 65536 then [224 + n / 4096, 128 + (n / 64) % 64, 128 + n % 64]
  else [240 + n / 262144, 128 + (n / 4096) % 64, 128 + (n / 64) % 64, 128 + n % 64]

/-- UTF-8 bytes of a string, as the Go []byte conversion produces. -/
def strBytes (s : String) : List Nat :=
  s.data.foldr (fun c acc => utf8Bytes c ++ acc) []

/-! ## pkg/jwtx/refresh.go -/

/-- HashRefreshToken hashes a given refresh token using SHA-256, returning
the lowercase hex digest, as jwtx.HashRefreshToken does. -/
def HashRefreshToken (token : String) : String :=
  bytesToHex (sha256 (strBytes token))

/-- GenerateRefreshToken of jwtx: rand.Read fills 64 random bytes (here the
bytes are an explicit input, with a flag for rand.Read failure); the token is
their hex encoding, and the stored value is the SHA-256 hex digest of the
token string. Returns (raw token, hashed token). -/
def GenerateRefreshToken (randFail : Bool) (randBytes : List Nat) :
    Except Unit (String × String) :=
  if randFail then .error ()
  else
    let token := bytesToHex randBytes
    .ok (token, HashRefreshToken token)

/-! ## pkg/jwtx/jwt.go -/

/-- Access-token payload encoding. jwtx.GenerateAccessToken signs custom
claims carrying the user id and email with HMAC-SHA256 via the external
golang-jwt library; the signed string is modelled as an opaque encoding of
the claim fields, with a flag for signing failure. -/
def GenerateAccessToken (signFail : Bool) (userID email : String) :
    Except Unit String :=
  if signFail then .error ()
  else .ok ("jwt.hs256." ++ userID ++ "." ++ email)

/-! ## pkg/hashx/hash.go -/

/-- Modelled from the spec: the Password Hasher is a one-way hash with a
compare primitive (bcrypt, an external library). Generate is modelled as a
tagged injective encoding of the password; only well-formed outputs of
Generate ever compare as equal. -/
def hashxGenerate (password : String) : String := "$2a$10$" ++ password

/-- Compare of hashx: bcrypt.CompareHashAndPassword succeeds exactly when the
first argument is a well-formed hash of the second; on any malformed hash
(the empty string, or the literal dummyPassword sentinel) it fails. -/
def Compare (hashedPassword password : String) : Bool :=
  hashedPassword == hashxGenerate password

/-! ## Data model (identity module) -/

/-- User record. The model.User source file is absent from the snapshot; the
fields are reconstructed from every use in the repository and service code
and from the spec data model: id, name, email, password hash, active flag,
nullable GitHub id, timestamps. -/
structure User where
  id : Nat
  name : String
  email : String
  password : String
  active : Bool
  githubID : Option Int
  createdAt : Int
  updatedAt : Int
deriving DecidableEq, Repr

/-- RefreshToken record, mirroring the refresh_tokens table of the migration
and the scans in refresh_token_repository.go. -/
structure RefreshTokenRec where
  id : Nat
  userID : Nat
  tokenHash : String
  userAgent : String
  ipAddress : String
  createdAt : Int
  expiresAt : Int
  revokedAt : Option Int
deriving DecidableEq, Repr

/-- GitHubUser identity fetched from the provider (model/github.go). -/
structure GitHubUser where
  id : Int
  email : String
  name : String
  avatarURL : String
  login : String
deriving DecidableEq, Repr

/-- Database state: the users and refresh_tokens tables in row order, plus
the id-generation counters standing for the generated primary keys. -/
structure Db where
  users : List User
  tokens : List RefreshTokenRec
  nextUserId : Nat
  nextTokenId : Nat
deriving DecidableEq, Repr

/-- Repository-level error: sql.ErrNoRows, or any other storage error. -/
inductive RepoErr
  | noRows
  | storage
deriving DecidableEq, Repr

/-! ## PostgresUserRepository (src/unnamed/part_015) -/

/-- Result of scanning a user row from a SELECT that does not include the
github_id column (FindByEmail, FindByID): the GitHubID field keeps its Go
zero value nil. -/
def scanUserBase (u : User) : User := { u with githubID := none }

/-- FindByEmail: SELECT id, name, email, password, active, created_at,
updated_at FROM users WHERE email = $1 AND active = true. Note github_id is
not selected. The failure flag injects a non-noRows storage error. -/
def FindByEmail (fail : Bool) (db : Db) (email : String) : Except RepoErr User :=
  if fail then .error .storage
  else
    match db.users.find? (fun u => u.email == email && u.active) with
    | some u => .ok (scanUserBase u)
    | none => .error .noRows

/-- FindByID: same column list as FindByEmail, WHERE id = $1 AND
active = true; github_id again not selected. -/
def FindByID (fail : Bool) (db : Db) (id : Nat) : Except RepoErr User :=
  if fail then .error .storage
  else
    match db.users.find? (fun u => u.id == id && u.active) with
    | some u => .ok (scanUserBase u)
    | none => .error .noRows

/-- FindByGitHubID: SELECT ... github_id ... FROM users WHERE github_id = $1,
with no active filter; only rows whose github_id is non-NULL and equal
match. -/
def FindByGitHubID (fail : Bool) (db : Db) (gid : Int) : Except RepoErr User :=
  if fail then .error .storage
  else
    match db.users.find? (fun u => u.githubID == some gid) with
    | some u => .ok u
    | none => .error .noRows

/-- Update: UPDATE users SET name, email, password, active, github_id,
updated_at = NOW() WHERE id = $6. -/
def UpdateUser (fail : Bool) (now : Int) (db : Db) (user : User) :
    Except RepoErr Db :=
  if fail then .error .storage
  else
    .ok { db with
          users := db.users.map (fun u =>
            if u.id == user.id then
              { u with name := user.name, email := user.email,
                       password := user.password, active := user.active,
                       githubID := user.githubID, updatedAt := now }
            else u) }

/-- CreateFromGitHub: INSERT INTO users (name, email, password, github_id)
RETURNING id, name, email, active, created_at, updated_at, github_id.
Modelled from the spec: the users table migration is absent from the
snapshot; per the spec data model the email column is unique (a duplicate
insert is a storage error) and the active column defaults to true. -/
def CreateFromGitHub (fail : Bool) (now : Int) (db : Db) (user : User) :
    Except RepoErr (User × Db) :=
  if fail then .error .storage
  else if db.users.any (fun u => u.email == user.email) then .error .storage
  else
    let created : User :=
      { id := db.nextUserId, name := user.name, email := user.email,
        password := user.password, active := true, githubID := user.githubID,
        createdAt := now, updatedAt := now }
    .ok (created, { db with users := db.users ++ [created],
                            nextUserId := db.nextUserId + 1 })

/-! ## PostgresRefreshTokenRepository (refresh_token_repository.go) -/

/-- Save: INSERT INTO refresh_tokens ... RETURNING id. The migration
declares token_hash UNIQUE, so inserting a duplicate hash is a storage
error. -/
def SaveRT (fail : Bool) (db : Db) (t : RefreshTokenRec) :
    Except RepoErr (RefreshTokenRec × Db) :=
  if fail then .error .storage
  else if db.tokens.any (fun x => x.tokenHash == t.tokenHash) then .error .storage
  else
    let saved := { t with id := db.nextTokenId }
    .ok (saved, { db with tokens := db.tokens ++ [saved],
                          nextTokenId := db.nextTokenId + 1 })

/-- RevokeByID: UPDATE refresh_tokens SET revoked_at = $1 WHERE id = $2. -/
def RevokeByID (fail : Bool) (now : Int) (db : Db) (id : Nat) :
    Except RepoErr Db :=
  if fail then .error .storage
  else
    .ok { db with
          tokens := db.tokens.map (fun t =>
            if t.id == id then { t with revokedAt := some now } else t) }

/-- FindByHash: SELECT ... FROM refresh_tokens WHERE token_hash = $1
LIMIT 1. -/
def FindByHashRT (fail : Bool) (db : Db) (hash : String) :
    Except RepoErr RefreshTokenRec :=
  if fail then .error .storage
  else
    match db.tokens.find? (fun t => t.tokenHash == hash) with
    | some t => .ok t
    | none => .error .noRows

/-! ## AuthService (auth_service.go) -/

/-- Service-level errors: the sentinel error values of auth_service.go plus
the wrapped internal errors produced by fmt.Errorf and xerrors wrapping,
carrying their context message. -/
inductive AuthErr
  | invalidRefreshToken
  | refreshTokenExpired
  | refreshTokenRevoked
  | userNotFound
  | userExistsWithSystemLogin
  | userExistsWithGitHubLogin
  | internalErr (msg : String)
deriving DecidableEq, Repr

/-- TokensResponse returned by Login and LoginWithGitHub. -/
structure TokensResponse where
  accessToken : String
  refreshToken : String
deriving DecidableEq, Repr

/-- Collaborator environment of one service call: failure-injection flags for
each database query and for the external signing and randomness primitives,
the random bytes rand.Read would produce, and the user agent and IP address
carried on the request context. -/
structure Env where
  findEmailFail : Bool
  findGhFail : Bool
  findIdFail : Bool
  findHashFail : Bool
  updateFail : Bool
  createFail : Bool
  revokeFail : Bool
  accessFail : Bool
  randFail : Bool
  randBytes : List Nat
  saveFail : Bool
  userAgent : String
  ipAddress : String
deriving Repr

/-- Environment with every collaborator healthy and given random bytes. -/
def envOk (bs : List Nat) : Env :=
  { findEmailFail := false, findGhFail := false, findIdFail := false,
    findHashFail := false, updateFail := false, createFail := false,
    revokeFail := false, accessFail := false, randFail := false,
    randBytes := bs, saveFail := false, userAgent := "ua", ipAddress := "ip" }

/-- Refresh-token lifetime: time.Now().Add(7 * 24 * time.Hour), with time
modelled in seconds. -/
def sevenDays : Int := 604800

/-- generateTokensForUser: issue an access token, generate a refresh token,
persist the refresh record for the user, and return both raw tokens. -/
def generateTokensForUser (env : Env) (now : Int) (db : Db) (user : User) :
    Except AuthErr TokensResponse × Db :=
  match GenerateAccessToken env.accessFail (toString user.id) user.email with
  | .error _ => (.error (.internalErr "failed to generate access token"), db)
  | .ok accessToken =>
    match GenerateRefreshToken env.randFail env.randBytes with
    | .error _ => (.error (.internalErr "failed to generate refresh token"), db)
    | .ok (refreshToken, hashedRefreshToken) =>
      let refresh : RefreshTokenRec :=
        { id := 0, userID := user.id, tokenHash := hashedRefreshToken,
          userAgent := env.userAgent, ipAddress := env.ipAddress,
          createdAt := now, expiresAt := now + sevenDays, revokedAt := none }
      match SaveRT env.saveFail db refresh with
      | .error _ => (.error (.internalErr "failed to store refresh token"), db)
      | .ok (_, db2) => (.ok { accessToken := accessToken, refreshToken := refreshToken }, db2)

/-- Login, instrumented: the third component records every invocation of
hashx.Compare as a (hashed, password) pair, in call order. The control flow
mirrors the Go source: find by email; on success check GitHubID and compare
the stored hash, on failure compare against the dummy; then the
noRows-or-invalid-password check precedes the wrapped storage-error return,
with validPassword still false on the error branch. -/
def Login (env : Env) (now : Int) (db : Db) (email password : String) :
    Except AuthErr TokensResponse × Db × List (String × String) :=
  match FindByEmail env.findEmailFail db email with
  | .ok user =>
    if user.githubID.isSome then
      (.error .userExistsWithGitHubLogin, db, [("dummyPassword", password)])
    else
      let validPassword := Compare user.password password
      if !validPassword then
        (.error .userNotFound, db, [(user.password, password)])
      else
        let (r, db2) := generateTokensForUser env now db user
        (r, db2, [(user.password, password)])
  | .error e =>
    let validPassword := false
    if e == RepoErr.noRows || !validPassword then
      (.error .userNotFound, db, [("dummyPassword", password)])
    else
      (.error (.internalErr "failed to find user by email"), db,
        [("dummyPassword", password)])

/-- createUserFromGitHub: build a User from the GitHub identity (no password,
active true, linked GitHub id) and insert it through CreateFromGitHub. -/
def createUserFromGitHub (env : Env) (now : Int) (db : Db) (gh : GitHubUser) :
    Except RepoErr (User × Db) :=
  let user : User :=
    { id := 0, name := gh.name, email := gh.email, password := "",
      active := true, githubID := some gh.id, createdAt := 0, updatedAt := 0 }
  CreateFromGitHub env.createFail now db user

/-- LoginWithGitHub: first look up by GitHub id; if found, sync a changed
email through Update and issue tokens. Only on noRows fall back to the email
lookup: a hit there is rejected with userExistsWithSystemLogin; a miss
creates a fresh GitHub-linked user and issues tokens. -/
def LoginWithGitHub (env : Env) (now : Int) (db : Db) (gh : GitHubUser) :
    Except AuthErr TokensResponse × Db :=
  match FindByGitHubID env.findGhFail db gh.id with
  | .ok user =>
    if user.email != gh.email then
      let user2 := { user with email := gh.email }
      match UpdateUser env.updateFail now db user2 with
      | .error _ => (.error (.internalErr "failed to update user email"), db)
      | .ok db2 => generateTokensForUser env now db2 user2
    else
      generateTokensForUser env now db user
  | .error e =>
    if e != RepoErr.noRows then
      (.error (.internalErr "failed to find user by github id"), db)
    else
      match FindByEmail env.findEmailFail db gh.email with
      | .ok _ => (.error .userExistsWithSystemLogin, db)
      | .error e2 =>
        if e2 != RepoErr.noRows then
          (.error (.internalErr "failed to find user by email"), db)
        else
          match createUserFromGitHub env now db gh with
          | .error _ => (.error (.internalErr "failed to create user from github"), db)
          | .ok (user, db2) => generateTokensForUser env now db2 user

/-- Observable collaborator calls of one RefreshToken execution, in call
order: the hash lookup, the revocation of the found record, the owner
lookup, the two token issuances, and the save of the new record. -/
inductive Ev
  | findByHash (hash : String)
  | revoke (id : Nat)
  | findUser (uid : Nat)
  | genAccess
  | genRefresh
  | saveNew (hash : String)
deriving DecidableEq, Repr

/-- RefreshToken of AuthService, instrumented with the event trace of its
collaborator calls. Mirrors the Go source: hash the input, look up by hash
(not found is invalidRefreshToken); expired check, then revoked check; revoke
the found record; re-fetch the owner (noRows is userNotFound); issue a new
access token and refresh token; persist the new record; return both raw
tokens. -/
def RefreshTokenCall (env : Env) (now : Int) (db : Db) (refreshTokenInput : String) :
    Except AuthErr (String × String) × Db × List Ev :=
  let hashed := HashRefreshToken refreshTokenInput
  match FindByHashRT env.findHashFail db hashed with
  | .error _ => (.error .invalidRefreshToken, db, [.findByHash hashed])
  | .ok refreshToken =>
    if refreshToken.expiresAt < now then
      (.error .refreshTokenExpired, db, [.findByHash hashed])
    else if refreshToken.revokedAt.isSome then
      (.error .refreshTokenRevoked, db, [.findByHash hashed])
    else
      match RevokeByID env.revokeFail now db refreshToken.id with
      | .error _ =>
        (.error (.internalErr "failed to revoke refresh token"), db,
          [.findByHash hashed, .revoke refreshToken.id])
      | .ok db1 =>
        match FindByID env.findIdFail db1 refreshToken.userID with
        | .error RepoErr.noRows =>
          (.error .userNotFound, db1,
            [.findByHash hashed, .revoke refreshToken.id, .findUser refreshToken.userID])
        | .error RepoErr.storage =>
          (.error (.internalErr "failed to find user"), db1,
            [.findByHash hashed, .revoke refreshToken.id, .findUser refreshToken.userID])
        | .ok user =>
          match GenerateAccessToken env.accessFail (toString user.id) user.email with
          | .error _ =>
            (.error (.internalErr "failed to generate access token"), db1,
              [.findByHash hashed, .revoke refreshToken.id,
               .findUser refreshToken.userID, .genAccess])
          | .ok newAccessToken =>
            match GenerateRefreshToken env.randFail env.randBytes with
            | .error _ =>
              (.error (.internalErr "failed to generate refresh token"), db1,
                [.findByHash hashed, .revoke refreshToken.id,
                 .findUser refreshToken.userID, .genAccess, .genRefresh])
            | .ok (rawRefreshToken, hashedRefreshToken) =>
              let newRefreshToken : RefreshTokenRec :=
                { id := 0, userID := refreshToken.userID,
                  tokenHash := hashedRefreshToken, userAgent := env.userAgent,
                  ipAddress := env.ipAddress, createdAt := now,
                  expiresAt := now + sevenDays, revokedAt := none }
              match SaveRT env.saveFail db1 newRefreshToken with
              | .error _ =>
                (.error (.internalErr "failed to save refresh token"), db1,
                  [.findByHash hashed, .revoke refreshToken.id,
                   .findUser refreshToken.userID, .genAccess, .genRefresh,
                   .saveNew hashedRefreshToken])
              | .ok (_, db2) =>
                (.ok (newAccessToken, rawRefreshToken), db2,
                  [.findByHash hashed, .revoke refreshToken.id,
                   .findUser refreshToken.userID, .genAccess, .genRefresh,
                   .saveNew hashedRefreshToken])

/-- Trace predicate: no credential-issuing call (access-token generation,
refresh-token generation, or save of the new record) occurs before the first
revocation call. -/
def noIssueBeforeRevoke : List Ev → Bool
  | [] => true
  | Ev.revoke _ :: _ => true
  | Ev.genAccess :: _ => false
  | Ev.genRefresh :: _ => false
  | Ev.saveNew _ :: _ => false
  | _ :: rest => noIssueBeforeRevoke rest

/-! ## GitHubOAuthService email resolution (github_auth_service.go) -/

/-- One entry of the GitHub list-emails response. -/
structure EmailEntry where
  email : String
  primary : Bool
  verified : Bool
deriving DecidableEq, Repr

/-- Selection loops of getPrimaryEmail over a decoded email list: first email
that is primary and verified; else first verified email; else the first email
if any; else an error. The HTTP fetch and decode are the Except input. -/
def getPrimaryEmail (fetch : Except String (List EmailEntry)) :
    Except String String :=
  match fetch with
  | .error e => .error e
  | .ok emails =>
    match emails.find? (fun e => e.primary && e.verified) with
    | some e => .ok e.email
    | none =>
      match emails.find? (fun e => e.verified) with
      | some e => .ok e.email
      | none =>
        match emails.head? with
        | some e => .ok e.email
        | none => .error "no email found"

/-- GetUserInfo after the profile response has been decoded into ghUser: when
the profile carried no email, resolve one through getPrimaryEmail over the
secondary emails call, failing if that fails. -/
def GetUserInfo (ghUser : GitHubUser) (fetch : Except String (List EmailEntry)) :
    Except String GitHubUser :=
  if ghUser.email == "" then
    match getPrimaryEmail fetch with
    | .error _ => .error "failed to get user email"
    | .ok email => .ok { ghUser with email := email }
  else
    .ok ghUser

/-- C9 helper, following the words of the spec: the resolved email is the
first primary-and-verified entry, otherwise the first verified entry,
otherwise the first entry, and nothing when the list is empty. -/
def specSelectEmail (emails : List EmailEntry) : Option String :=
  match emails.find? (fun e => e.primary && e.verified) with
  | some e => some e.email
  | none =>
    match emails.find? (fun e => e.verified) with
    | some e => some e.email
    | none => emails.head?.map (fun e => e.email)

deriving instance DecidableEq for Except

/-! ## Concrete fixtures used by counterexamples and witnesses -/

/-- An inactive password-based user. -/
def userInactivePw : User :=
  { id := 1, name := "n", email := "e@x.com", password := "$2a$10$pw",
    active := false, githubID := none, createdAt := 0, updatedAt := 0 }

/-- Store holding only the inactive password user. -/
def dbInactivePw : Db :=
  { users := [userInactivePw], tokens := [], nextUserId := 2, nextTokenId := 1 }

/-- An active password-based user with the same email. -/
def userActivePw : User :=
  { id := 1, name := "n", email := "e@x.com", password := "$2a$10$pw",
    active := true, githubID := none, createdAt := 0, updatedAt := 0 }

/-- Store holding only the active password user. -/
def dbActivePw : Db :=
  { users := [userActivePw], tokens := [], nextUserId := 2, nextTokenId := 1 }

/-- A GitHub identity whose id matches nobody and whose email is e@x.com. -/
def ghIdent99 : GitHubUser :=
  { id := 99, email := "e@x.com", name := "n", avatarURL := "", login := "l" }

/-- An active user linked to GitHub id 7 with a stale stored email. -/
def userGh7 : User :=
  { id := 1, name := "n", email := "old@x.com", password := "",
    active := true, githubID := some 7, createdAt := 0, updatedAt := 0 }

/-- Store holding only the GitHub-linked user. -/
def dbGh7 : Db :=
  { users := [userGh7], tokens := [], nextUserId := 2, nextTokenId := 1 }

/-- The GitHub identity of id 7 carrying a fresh email. -/
def ghIdent7 : GitHubUser :=
  { id := 7, email := "new@x.com", name := "n", avatarURL := "", login := "l" }

/-- A deactivated user who is linked to GitHub id 7. -/
def userInactGh : User :=
  { id := 1, name := "n", email := "a@x.com", password := "$2a$10$pw",
    active := false, githubID := some 7, createdAt := 0, updatedAt := 0 }

/-- A live refresh token owned by the deactivated user. -/
def tokenOfInact : RefreshTokenRec :=
  { id := 5, userID := 1, tokenHash := HashRefreshToken "rawtok",
    userAgent := "", ipAddress := "", createdAt := 0, expiresAt := 100,
    revokedAt := none }

/-- Store holding the deactivated GitHub-linked user and their token. -/
def dbInactGh : Db :=
  { users := [userInactGh], tokens := [tokenOfInact], nextUserId := 2, nextTokenId := 6 }

/-- The GitHub identity of id 7 with the same email as the stored record. -/
def ghIdent7b : GitHubUser :=
  { id := 7, email := "a@x.com", name := "n", avatarURL := "", login := "l" }

/-- An active password user owning a live refresh token. -/
def userAct : User :=
  { id := 1, name := "n", email := "a@x.com", password := "$2a$10$pw",
    active := true, githubID := none, createdAt := 0, updatedAt := 0 }

/-- A live refresh token (unexpired, unrevoked) for the raw value rawtok. -/
def tokenLive : RefreshTokenRec :=
  { id := 5, userID := 1, tokenHash := HashRefreshToken "rawtok",
    userAgent := "", ipAddress := "", createdAt := 0, expiresAt := 100,
    revokedAt := none }

/-- Store holding the active user and the live token. -/
def dbLive : Db :=
  { users := [userAct], tokens := [tokenLive], nextUserId := 2, nextTokenId := 6 }

/-! ## Helper lemmas -/

/-- Sanity check of the SHA-256 embedding against the FIPS 180-4 test vector
for the message abc. -/
theorem sha256_vector_abc :
    bytesToHex (sha256 (strBytes "abc")) =
      "ba7816bf8f01cfea414140de5dae2223b00361a396177a9cb410ff61f20015ad" := by
  decide

/-- Elimination for a successful FindByEmail: the flag was clear, the row is
the first active match, and the scan leaves GitHubID at nil. -/
theorem FindByEmail_ok {f : Bool} {db : Db} {email : String} {u : User}
    (h : FindByEmail f db email = .ok u) :
    f = false ∧ ∃ u0, db.users.find? (fun x => x.email == email && x.active) = some u0 ∧
      u = scanUserBase u0 := by
  unfold FindByEmail at h
  split at h
  · exact absurd h (by simp)
  · split at h
    · next u0 hfind =>
        injection h with h
        exact ⟨by simp_all, u0, hfind, h.symm⟩
    · exact absurd h (by simp)

/-- A user produced by FindByEmail always has GitHubID nil, because the
SELECT omits the github_id column. -/
theorem FindByEmail_ok_github_none {f : Bool} {db : Db} {email : String} {u : User}
    (h : FindByEmail f db email = .ok u) : u.githubID = none := by
  obtain ⟨-, u0, -, hu⟩ := FindByEmail_ok h
  subst hu
  rfl

/-- The first component of generateTokensForUser is either a success or one
of its three wrapped internal errors. -/
theorem generateTokensForUser_fst (env : Env) (now : Int) (db : Db) (u : User) :
    (generateTokensForUser env now db u).1 = .error (.internalErr "failed to generate access token")
  ∨ (generateTokensForUser env now db u).1 = .error (.internalErr "failed to generate refresh token")
  ∨ (generateTokensForUser env now db u).1 = .error (.internalErr "failed to store refresh token")
  ∨ ∃ t, (generateTokensForUser env now db u).1 = .ok t := by
  unfold generateTokensForUser
  split
  · simp
  · split
    · simp
    · dsimp only
      split
      · simp
      · simp

/-- Elimination for a successful FindByHashRT. -/
theorem FindByHashRT_ok {f : Bool} {db : Db} {hash : String} {tk : RefreshTokenRec}
    (h : FindByHashRT f db hash = .ok tk) :
    f = false ∧ db.tokens.find? (fun t => t.tokenHash == hash) = some tk := by
  unfold FindByHashRT at h
  split at h
  · exact absurd h (by simp)
  · split at h
    · next t0 hfind => injection h with h; subst h; exact ⟨by simp_all, hfind⟩
    · exact absurd h (by simp)

/-- Elimination for a successful FindByID: flag clear, first active row with
the id, github_id not scanned. -/
theorem FindByID_ok {f : Bool} {db : Db} {id : Nat} {u : User}
    (h : FindByID f db id = .ok u) :
    f = false ∧ ∃ u0, db.users.find? (fun x => x.id == id && x.active) = some u0 ∧
      u = scanUserBase u0 := by
  unfold FindByID at h
  split at h
  · exact absurd h (by simp)
  · split at h
    · next u0 hfind => injection h with h; exact ⟨by simp_all, u0, hfind, h.symm⟩
    · exact absurd h (by simp)

/-- Elimination for a successful RevokeByID. -/
theorem RevokeByID_ok {f : Bool} {now : Int} {db : Db} {id : Nat} {db2 : Db}
    (h : RevokeByID f now db id = .ok db2) :
    f = false ∧ db2 = { db with tokens := db.tokens.map (fun t =>
      if t.id == id then { t with revokedAt := some now } else t) } := by
  unfold RevokeByID at h
  split at h
  · exact absurd h (by simp)
  · injection h with h; exact ⟨by simp_all, h.symm⟩

/-- Elimination for a successful SaveRT: flag clear, the hash was not yet
present, the row got the generated id and was appended. -/
theorem SaveRT_ok {f : Bool} {db : Db} {t0 saved : RefreshTokenRec} {db2 : Db}
    (h : SaveRT f db t0 = .ok (saved, db2)) :
    f = false ∧ (∀ x ∈ db.tokens, ¬(x.tokenHash == t0.tokenHash) = true) ∧
      saved = { t0 with id := db.nextTokenId } ∧
      db2 = { db with tokens := db.tokens ++ [{ t0 with id := db.nextTokenId }],
                      nextTokenId := db.nextTokenId + 1 } := by
  unfold SaveRT at h
  split at h
  · exact absurd h (by simp)
  · split at h
    · exact absurd h (by simp)
    · next hany =>
        simp only [Except.ok.injEq, Prod.mk.injEq] at h
        obtain ⟨h1, h2⟩ := h
        refine ⟨by simp_all, List.any_eq_false.mp (by simp_all), h1.symm, ?_⟩
        rw [← h2]

/-- Elimination for a successful GenerateRefreshToken. -/
theorem GenerateRefreshToken_ok {f : Bool} {bs : List Nat} {tok hsh : String}
    (h : GenerateRefreshToken f bs = .ok (tok, hsh)) :
    f = false ∧ tok = bytesToHex bs ∧ hsh = HashRefreshToken (bytesToHex bs) := by
  unfold GenerateRefreshToken at h
  split at h
  · exact absurd h (by simp)
  · simp only [Except.ok.injEq, Prod.mk.injEq] at h
    exact ⟨by simp_all, h.1.symm, h.2.symm⟩

/-- Elimination for a successful GenerateAccessToken. -/
theorem GenerateAccessToken_ok {f : Bool} {uid em s : String}
    (h : GenerateAccessToken f uid em = .ok s) :
    f = false ∧ s = "jwt.hs256." ++ uid ++ "." ++ em := by
  unfold GenerateAccessToken at h
  split at h
  · exact absurd h (by simp)
  · injection h with h; exact ⟨by simp_all, h.symm⟩

/-- Forward evaluation of generateTokensForUser when every collaborator is
healthy and the generated hash is fresh: the exact response and the exact
state, with the new refresh row bound to the user id and appended. -/
theorem generateTokensForUser_ok (env : Env) (now : Int) (db : Db) (user : User)
    (hacc : env.accessFail = false) (hrand : env.randFail = false)
    (hsave : env.saveFail = false)
    (hfresh : ∀ x ∈ db.tokens, ¬(x.tokenHash = HashRefreshToken (bytesToHex env.randBytes))) :
    generateTokensForUser env now db user =
      (.ok { accessToken := "jwt.hs256." ++ toString user.id ++ "." ++ user.email,
             refreshToken := bytesToHex env.randBytes },
       { db with
         tokens := db.tokens ++
           [{ id := db.nextTokenId, userID := user.id,
              tokenHash := HashRefreshToken (bytesToHex env.randBytes),
              userAgent := env.userAgent, ipAddress := env.ipAddress,
              createdAt := now, expiresAt := now + sevenDays, revokedAt := none }],
         nextTokenId := db.nextTokenId + 1 }) := by
  have hany : db.tokens.any
      (fun x => x.tokenHash == HashRefreshToken (bytesToHex env.randBytes)) = false := by
    rw [List.any_eq_false]
    intro x hx
    simpa using hfresh x hx
  unfold generateTokensForUser GenerateAccessToken GenerateRefreshToken SaveRT
  rw [hacc, hrand, hsave]
  simp only [Bool.false_eq_true, if_false, hany]

/-- Finding by token hash is unaffected by a hash-preserving rewrite of the
table followed by appended rows, as long as the original table had a hit. -/
theorem find?_map_append_pres {g : RefreshTokenRec → RefreshTokenRec}
    (hg : ∀ y, (g y).tokenHash = y.tokenHash) (l tail : List RefreshTokenRec)
    {h : String} {rt : RefreshTokenRec}
    (hfind : l.find? (fun y => y.tokenHash == h) = some rt) :
    (l.map g ++ tail).find? (fun y => y.tokenHash == h) = some (g rt) := by
  have hcomp : ((fun y => y.tokenHash == h) ∘ g) = (fun y => y.tokenHash == h) :=
    funext fun y => by simp [Function.comp, hg y]
  rw [List.find?_append, List.find?_map, hcomp, hfind]
  rfl

/-- After the revocation update, every row carrying the revoked id has its
revoked_at set. -/
theorem revoked_in_mapped (l : List RefreshTokenRec) (rtid : Nat) (t : Int) :
    ∀ x ∈ l.map (fun y => if y.id == rtid then { y with revokedAt := some t } else y),
      x.id = rtid → x.revokedAt = some t := by
  intro x hx hid
  rcases List.mem_map.mp hx with ⟨w, hw, hwx⟩
  by_cases hwid : (w.id == rtid) = true
  · rw [← hwx]
    simp [hwid]
  · rw [← hwx] at hid ⊢
    simp only [hwid, Bool.false_eq_true, if_false] at hid ⊢
    exact absurd hid (by simpa using hwid)

/-- Conditions necessarily established by a successful RefreshToken call:
every collaborator flag clear, a live row found by hash, an active owner
found, the returned raw token equal to the hex of the generated bytes, the
returned access token encoding the owner, and the generated hash fresh. -/
theorem RefreshTokenCall_ok_conditions {env : Env} {t : Int} {db : Db} {raw a r : String}
    (h : (RefreshTokenCall env t db raw).1 = .ok (a, r)) :
    env.findHashFail = false ∧ env.revokeFail = false ∧ env.findIdFail = false ∧
    env.accessFail = false ∧ env.randFail = false ∧ env.saveFail = false ∧
    r = bytesToHex env.randBytes ∧
    ∃ rt, db.tokens.find? (fun x => x.tokenHash == HashRefreshToken raw) = some rt ∧
      ¬(rt.expiresAt < t) ∧ rt.revokedAt = none ∧
      (∃ u0, db.users.find? (fun v => v.id == rt.userID && v.active) = some u0 ∧
        a = "jwt.hs256." ++ toString u0.id ++ "." ++ u0.email) ∧
      (∀ x ∈ db.tokens, ¬(x.tokenHash = HashRefreshToken (bytesToHex env.randBytes))) := by
  unfold RefreshTokenCall at h
  dsimp only at h
  split at h
  · simp at h
  · next rt heqFH =>
    obtain ⟨hhf, hfind⟩ := FindByHashRT_ok heqFH
    split at h
    · simp at h
    · next hexp =>
      split at h
      · simp at h
      · next hrevB =>
        have hrev : rt.revokedAt = none := Option.not_isSome_iff_eq_none.mp hrevB
        split at h
        · simp at h
        · next db1 heqRV =>
          obtain ⟨hrf, hdb1⟩ := RevokeByID_ok heqRV
          subst hdb1
          split at h
          · simp at h
          · simp at h
          · next user heqFI =>
            obtain ⟨hif, u0, hu0, huser⟩ := FindByID_ok heqFI
            subst huser
            split at h
            · simp at h
            · next s heqGA =>
              obtain ⟨hacc, hs⟩ := GenerateAccessToken_ok heqGA
              split at h
              · simp at h
              · next rawT hashT heqGR =>
                obtain ⟨hrand, hrawT, hhashT⟩ := GenerateRefreshToken_ok heqGR
                subst hrawT
                subst hhashT
                split at h
                · simp at h
                · next fst db2 heqSV =>
                  obtain ⟨hsave, hfreshM, hsaved, hdb2⟩ := SaveRT_ok heqSV
                  simp only [Except.ok.injEq, Prod.mk.injEq] at h
                  obtain ⟨ha, hr⟩ := h
                  refine ⟨hhf, hrf, hif, hacc, hrand, hsave, hr.symm, rt, hfind,
                          hexp, hrev, ⟨u0, hu0, ?_⟩, ?_⟩
                  · rw [← ha, hs]
                    simp [scanUserBase]
                  · intro x hx
                    have hmem := List.mem_map_of_mem
                      (fun y => if y.id == rt.id then { y with revokedAt := some t } else y) hx
                    have hne := hfreshM _ hmem
                    by_cases hid : (x.id == rt.id) = true
                    · simp only [hid, if_true] at hne
                      simpa using hne
                    · simp only [hid, Bool.false_eq_true, if_false] at hne
                      simpa using hne

/-- Forward evaluation of RefreshToken on a live token with every
collaborator healthy and a fresh generated hash: the exact result, the exact
final state (old row revoked in place, new row appended), and the exact
call trace. -/
theorem RefreshTokenCall_run (env : Env) (t : Int) (db : Db) (raw : String)
    (rt : RefreshTokenRec) (u0 : User)
    (hhf : env.findHashFail = false)
    (hfind : db.tokens.find? (fun x => x.tokenHash == HashRefreshToken raw) = some rt)
    (hexp : ¬(rt.expiresAt < t)) (hrev : rt.revokedAt = none)
    (hrf : env.revokeFail = false) (hif : env.findIdFail = false)
    (huser : db.users.find? (fun v => v.id == rt.userID && v.active) = some u0)
    (hacc : env.accessFail = false) (hrand : env.randFail = false)
    (hsave : env.saveFail = false)
    (hfresh : ∀ x ∈ db.tokens, ¬(x.tokenHash = HashRefreshToken (bytesToHex env.randBytes))) :
    RefreshTokenCall env t db raw =
      (.ok ("jwt.hs256." ++ toString u0.id ++ "." ++ u0.email, bytesToHex env.randBytes),
       { users := db.users,
         tokens := db.tokens.map (fun y =>
             if y.id == rt.id then { y with revokedAt := some t } else y)
           ++ [{ id := db.nextTokenId, userID := rt.userID,
                 tokenHash := HashRefreshToken (bytesToHex env.randBytes),
                 userAgent := env.userAgent, ipAddress := env.ipAddress,
                 createdAt := t, expiresAt := t + sevenDays, revokedAt := none }],
         nextUserId := db.nextUserId, nextTokenId := db.nextTokenId + 1 },
       [.findByHash (HashRefreshToken raw), .revoke rt.id, .findUser rt.userID,
        .genAccess, .genRefresh,
        .saveNew (HashRefreshToken (bytesToHex env.randBytes))]) := by
  have e1 : FindByHashRT env.findHashFail db (HashRefreshToken raw) = .ok rt := by
    unfold FindByHashRT
    rw [hhf]
    simp [hfind]
  have e2 : RevokeByID env.revokeFail t db rt.id =
      .ok { db with
            tokens := db.tokens.map (fun y =>
              if y.id == rt.id then { y with revokedAt := some t } else y) } := by
    unfold RevokeByID
    rw [hrf]
    simp only [Bool.false_eq_true, if_false]
  have e3 : FindByID env.findIdFail
      { db with
        tokens := db.tokens.map (fun y =>
          if y.id == rt.id then { y with revokedAt := some t } else y) }
      rt.userID = .ok (scanUserBase u0) := by
    unfold FindByID
    rw [hif]
    dsimp only
    rw [huser]
    rfl
  have e5 : GenerateRefreshToken env.randFail env.randBytes =
      .ok (bytesToHex env.randBytes, HashRefreshToken (bytesToHex env.randBytes)) := by
    unfold GenerateRefreshToken
    rw [hrand]
    simp
  have hany : (db.tokens.map (fun y =>
      if y.id == rt.id then { y with revokedAt := some t } else y)).any
        (fun x => x.tokenHash == HashRefreshToken (bytesToHex env.randBytes)) = false := by
    rw [List.any_map, List.any_eq_false]
    intro x hx
    by_cases hid : (x.id == rt.id) = true
    · simp only [Function.comp, hid, if_true]
      simpa using hfresh x hx
    · simp only [Function.comp, hid, Bool.false_eq_true, if_false]
      simpa using hfresh x hx
  unfold RefreshTokenCall
  dsimp only
  rw [e1]
  dsimp only
  rw [if_neg hexp, hrev]
  simp only [Option.isSome_none, Bool.false_eq_true, if_false]
  rw [e2]
  dsimp only
  rw [e3]
  dsimp only [scanUserBase]
  unfold GenerateAccessToken
  rw [hacc]
  simp only [Bool.false_eq_true, if_false]
  rw [e5]
  dsimp only
  unfold SaveRT
  rw [hsave]
  simp only [Bool.false_eq_true, if_false, hany]

/-- A refresh attempt against a state whose first hash hit is already
revoked can never succeed, and fails with refreshTokenRevoked whenever the
lookup is healthy and the row has not also expired. -/
theorem RefreshTokenCall_on_revoked (env3 : Env) (t2 : Int) (dbA : Db) (raw : String)
    (rtv : RefreshTokenRec)
    (hfind : dbA.tokens.find? (fun y => y.tokenHash == HashRefreshToken raw) = some rtv)
    (hrevd : rtv.revokedAt.isSome = true) :
    (∀ p2, (RefreshTokenCall env3 t2 dbA raw).1 ≠ .ok p2)
    ∧ (env3.findHashFail = false → ¬(rtv.expiresAt < t2) →
        (RefreshTokenCall env3 t2 dbA raw).1 = .error AuthErr.refreshTokenRevoked) := by
  by_cases hf : env3.findHashFail = true
  · constructor
    · intro p2 hcon
      unfold RefreshTokenCall FindByHashRT at hcon
      rw [hf] at hcon
      simp at hcon
    · intro hf2
      rw [hf] at hf2
      exact absurd hf2 (by simp)
  · have hf0 : env3.findHashFail = false := by simpa using hf
    have e1 : FindByHashRT env3.findHashFail dbA (HashRefreshToken raw) = .ok rtv := by
      unfold FindByHashRT
      rw [hf0]
      simp [hfind]
    constructor
    · intro p2 hcon
      unfold RefreshTokenCall at hcon
      dsimp only at hcon
      rw [e1] at hcon
      dsimp only at hcon
      by_cases hexp2 : rtv.expiresAt < t2
      · rw [if_pos hexp2] at hcon
        simp at hcon
      · rw [if_neg hexp2, hrevd] at hcon
        simp at hcon
    · intro _ hexp2
      unfold RefreshTokenCall
      dsimp only
      rw [e1]
      dsimp only
      rw [if_neg hexp2, hrevd]
      simp

/-! ## Claims -/

/-- C3: the claim says Login on an OAuth-only account found by email fails
with UserExistsWithGitHubLogin after a dummy comparison. In the code as
composed with PostgresUserRepository this cannot happen: FindByEmail never
selects github_id, so the GitHubID guard in Login is dead and the login
falls through to the (failing) password comparison. First conjunct: no Login
execution returns UserExistsWithGitHubLogin. Second conjunct: on a store
holding exactly one active OAuth-only user (GitHub id 7, empty password
credential), Login with that email returns UserNotFound. -/
theorem c3_oauth_only_login_misses_github_guard :
    (∀ env now db email password,
        (Login env now db email password).1 ≠ .error AuthErr.userExistsWithGitHubLogin)
    ∧ (Login (envOk [1]) 0
        { users := [{ id := 1, name := "g", email := "g@x.com", password := "",
                      active := true, githubID := some 7, createdAt := 0, updatedAt := 0 }],
          tokens := [], nextUserId := 2, nextTokenId := 1 }
        "g@x.com" "pw").1 = .error AuthErr.userNotFound := by
  constructor
  · intro env now db email password h
    unfold Login at h
    cases hfe : FindByEmail env.findEmailFail db email with
    | ok user =>
        rw [hfe] at h
        dsimp only at h
        have hg : user.githubID = none := FindByEmail_ok_github_none hfe
        rw [hg] at h
        simp only [Option.isSome_none, if_false, Bool.false_eq_true] at h
        split at h
        · exact absurd h (by simp)
        · rcases generateTokensForUser_fst env now db user with h1 | h1 | h1 | ⟨t, h1⟩ <;>
            simp_all
    | error e =>
        rw [hfe] at h
        dsimp only at h
        simp only [Bool.not_false, Bool.or_true, if_true] at h
        exact absurd h (by simp)
  · decide

/-- C4: the claim says a storage error (other than not-found) in the email
lookup makes Login return a wrapped internal error, never UserNotFound. In
the code the error branch leaves validPassword false, so the
noRows-or-invalid-password check fires first and returns UserNotFound; the
wrapped-error return is dead. First conjunct: whenever the email lookup
fails with a storage error, Login returns UserNotFound. Second conjunct: no
Login execution ever returns the wrapped find-by-email error. -/
theorem c4_storage_error_login_returns_user_not_found
    (env : Env) (now : Int) (db : Db) (email password : String)
    (h : env.findEmailFail = true) :
    (Login env now db email password).1 = .error AuthErr.userNotFound
    ∧ (∀ env2 now2 db2 email2 password2,
        (Login env2 now2 db2 email2 password2).1 ≠
          .error (AuthErr.internalErr "failed to find user by email")) := by
  constructor
  · unfold Login FindByEmail
    rw [h]
    simp
  · intro env2 now2 db2 email2 password2 hc
    unfold Login at hc
    cases hfe : FindByEmail env2.findEmailFail db2 email2 with
    | ok user =>
        rw [hfe] at hc
        dsimp only at hc
        have hg : user.githubID = none := FindByEmail_ok_github_none hfe
        rw [hg] at hc
        simp only [Option.isSome_none, if_false, Bool.false_eq_true] at hc
        split at hc
        · exact absurd hc (by simp)
        · rcases generateTokensForUser_fst env2 now2 db2 user with h1 | h1 | h1 | ⟨t, h1⟩ <;>
            simp_all
    | error e =>
        rw [hfe] at hc
        dsimp only at hc
        simp only [Bool.not_false, Bool.or_true, if_true] at hc
        exact absurd hc (by simp)

/-- Witness for C4 at a concrete storage-failing environment. -/
theorem c4_witness :
    (Login { envOk [1] with findEmailFail := true } 0
        { users := [], tokens := [], nextUserId := 1, nextTokenId := 1 }
        "a@x.com" "pw").1 = .error AuthErr.userNotFound :=
  (c4_storage_error_login_returns_user_not_found
    { envOk [1] with findEmailFail := true } 0
    { users := [], tokens := [], nextUserId := 1, nextTokenId := 1 }
    "a@x.com" "pw" rfl).1

/-- C7: every Login execution, failing ones in particular, invokes the
password comparison primitive exactly once: against the stored hash of the
user found by email, and against the fixed dummy hash when the lookup
returned an error. Both failure paths therefore perform the same single
comparison. -/
theorem c7_login_single_compare (env : Env) (now : Int) (db : Db)
    (email password : String) :
    (Login env now db email password).2.2.length = 1
    ∧ (match FindByEmail env.findEmailFail db email with
       | .ok user => (Login env now db email password).2.2 = [(user.password, password)]
       | .error _ => (Login env now db email password).2.2 = [("dummyPassword", password)]) := by
  unfold Login
  cases hfe : FindByEmail env.findEmailFail db email with
  | ok user =>
      dsimp only
      have hg : user.githubID = none := FindByEmail_ok_github_none hfe
      rw [hg]
      simp only [Option.isSome_none, if_false, Bool.false_eq_true]
      split
      · simp
      · simp
  | error e =>
      simp

/-- C9: when the primary profile response carries an empty email, GetUserInfo
resolves the email from the secondary list by the spec preference order —
primary-and-verified first, then first verified, then first present — and
returns an error when the list is empty. -/
theorem c9_email_preference_order (gh : GitHubUser) (emails : List EmailEntry)
    (h : gh.email = "") :
    GetUserInfo gh (.ok emails) =
      (match specSelectEmail emails with
       | some em => .ok { gh with email := em }
       | none => .error "failed to get user email") := by
  unfold GetUserInfo getPrimaryEmail specSelectEmail
  rw [h]
  simp only [beq_self_eq_true, if_true]
  cases h1 : emails.find? (fun e => e.primary && e.verified) with
  | some e => simp
  | none =>
      cases h2 : emails.find? (fun e => e.verified) with
      | some e => simp
      | none =>
          cases h3 : emails.head? with
          | some e => simp
          | none => simp

/-- Witness for C9 on a concrete identity with an empty profile email and a
list whose only primary entry is unverified: the first verified entry wins. -/
theorem c9_witness :
    GetUserInfo { id := 1, email := "", name := "n", avatarURL := "", login := "l" }
        (.ok [{ email := "a@x", primary := true, verified := false },
              { email := "b@x", primary := false, verified := true },
              { email := "c@x", primary := false, verified := true }]) =
      .ok { id := 1, email := "b@x", name := "n", avatarURL := "", login := "l" } := by
  rw [c9_email_preference_order
    { id := 1, email := "", name := "n", avatarURL := "", login := "l" }
    [{ email := "a@x", primary := true, verified := false },
     { email := "b@x", primary := false, verified := true },
     { email := "c@x", primary := false, verified := true }] rfl]
  decide

/-- C5 counterexample: the claim quantifies over states in which some user
record has the identity email; with an inactive record holding that email,
LoginWithGitHub does not fail with UserExistsWithSystemLogin — the email
lookup filters on active = true, so the code falls through to user creation
(which then trips over the unique email). -/
theorem c5_counterexample :
    (∀ u ∈ dbInactivePw.users, u.githubID ≠ some ghIdent99.id)
    ∧ (∃ u ∈ dbInactivePw.users, u.email = ghIdent99.email)
    ∧ (LoginWithGitHub (envOk [1]) 0 dbInactivePw ghIdent99).1 ≠
        .error AuthErr.userExistsWithSystemLogin := by
  refine ⟨by decide, ⟨userInactivePw, by decide, by decide⟩, by decide⟩

/-- C5 as amended: when no user carries the identity GitHub id and some
ACTIVE user record carries the identity email, LoginWithGitHub fails with
UserExistsWithSystemLogin and leaves the store unchanged. -/
theorem c5_amended_rejects_active_email_match
    (env : Env) (now : Int) (db : Db) (gh : GitHubUser)
    (hgf : env.findGhFail = false) (hef : env.findEmailFail = false)
    (hnogh : ∀ u ∈ db.users, u.githubID ≠ some gh.id)
    (hemail : ∃ u ∈ db.users, u.email = gh.email ∧ u.active = true) :
    (LoginWithGitHub env now db gh).1 = .error AuthErr.userExistsWithSystemLogin
    ∧ (LoginWithGitHub env now db gh).2 = db := by
  have h1 : FindByGitHubID env.findGhFail db gh.id = .error .noRows := by
    unfold FindByGitHubID
    rw [hgf]
    have hnone : db.users.find? (fun u => u.githubID == some gh.id) = none :=
      List.find?_eq_none.mpr (fun x hx => by simpa using hnogh x hx)
    simp [hnone]
  obtain ⟨u, hu, hue, hua⟩ := hemail
  have h2 : (db.users.find? (fun x => x.email == gh.email && x.active)).isSome = true :=
    List.find?_isSome.mpr ⟨u, hu, by simp [hue, hua]⟩
  obtain ⟨u0, hu0⟩ := Option.isSome_iff_exists.mp h2
  have h3 : FindByEmail env.findEmailFail db gh.email = .ok (scanUserBase u0) := by
    unfold FindByEmail
    rw [hef]
    simp [hu0]
  unfold LoginWithGitHub
  rw [h1]
  dsimp only
  simp only [bne_self_eq_false, Bool.false_eq_true, if_false]
  rw [h3]
  exact ⟨rfl, rfl⟩

/-- Witness for the amended C5 on the concrete active password user. -/
theorem c5_witness :
    (LoginWithGitHub (envOk [1]) 0 dbActivePw ghIdent99).1 =
        .error AuthErr.userExistsWithSystemLogin
    ∧ (LoginWithGitHub (envOk [1]) 0 dbActivePw ghIdent99).2 = dbActivePw :=
  c5_amended_rejects_active_email_match (envOk [1]) 0 dbActivePw ghIdent99
    rfl rfl (by decide) ⟨userActivePw, by decide, by decide, by decide⟩

/-- C6: when the GitHub-id lookup finds a user whose stored email differs
from the identity email, LoginWithGitHub updates the stored email, succeeds
with tokens bound to the existing user id, and creates no new user record. -/
theorem c6_federation_precedence
    (env : Env) (now : Int) (db : Db) (gh : GitHubUser) (user : User)
    (hfound : FindByGitHubID env.findGhFail db gh.id = .ok user)
    (hne : user.email ≠ gh.email)
    (hupd : env.updateFail = false) (hacc : env.accessFail = false)
    (hrand : env.randFail = false) (hsave : env.saveFail = false)
    (hfresh : ∀ x ∈ db.tokens, ¬(x.tokenHash = HashRefreshToken (bytesToHex env.randBytes))) :
    (LoginWithGitHub env now db gh).1 =
      .ok { accessToken := "jwt.hs256." ++ toString user.id ++ "." ++ gh.email,
            refreshToken := bytesToHex env.randBytes }
    ∧ (LoginWithGitHub env now db gh).2.users.length = db.users.length
    ∧ (∀ v ∈ (LoginWithGitHub env now db gh).2.users, v.id = user.id → v.email = gh.email)
    ∧ (∃ tk ∈ (LoginWithGitHub env now db gh).2.tokens,
        tk.userID = user.id ∧ tk.tokenHash = HashRefreshToken (bytesToHex env.randBytes)) := by
  have hbne : (user.email != gh.email) = true := bne_iff_ne.mpr hne
  have hU : UpdateUser env.updateFail now db { user with email := gh.email } =
      .ok { db with
            users := db.users.map (fun u =>
              if u.id == user.id then
                { u with name := user.name, email := gh.email,
                         password := user.password, active := user.active,
                         githubID := user.githubID, updatedAt := now }
              else u) } := by
    unfold UpdateUser
    rw [hupd]
    simp only [Bool.false_eq_true, if_false]
  have hgen := generateTokensForUser_ok env now
      { db with
        users := db.users.map (fun u =>
          if u.id == user.id then
            { u with name := user.name, email := gh.email,
                     password := user.password, active := user.active,
                     githubID := user.githubID, updatedAt := now }
          else u) }
      { user with email := gh.email } hacc hrand hsave (fun x hx => hfresh x hx)
  have hres : LoginWithGitHub env now db gh =
      generateTokensForUser env now
        { db with
          users := db.users.map (fun u =>
            if u.id == user.id then
              { u with name := user.name, email := gh.email,
                       password := user.password, active := user.active,
                       githubID := user.githubID, updatedAt := now }
            else u) }
        { user with email := gh.email } := by
    unfold LoginWithGitHub
    rw [hfound]
    dsimp only
    rw [hbne]
    simp only [if_true]
    rw [hU]
  rw [hres, hgen]
  refine ⟨rfl, by simp, ?_, ?_⟩
  · intro v hv hid
    simp only at hv
    rcases List.mem_map.mp hv with ⟨w, hw, hwv⟩
    by_cases hwid : (w.id == user.id) = true
    · rw [← hwv]
      simp [hwid]
    · rw [← hwv] at hid ⊢
      simp only [hwid, Bool.false_eq_true, if_false] at hid ⊢
      exact absurd hid (by simpa using hwid)
  · refine ⟨{ id := db.nextTokenId, userID := user.id,
              tokenHash := HashRefreshToken (bytesToHex env.randBytes),
              userAgent := env.userAgent, ipAddress := env.ipAddress,
              createdAt := now, expiresAt := now + sevenDays, revokedAt := none },
            ?_, rfl, rfl⟩
    simp

/-- Witness for C6 on the GitHub-linked user with a stale email. -/
theorem c6_witness :
    (LoginWithGitHub (envOk [1]) 0 dbGh7 ghIdent7).1 =
      .ok { accessToken := "jwt.hs256." ++ toString userGh7.id ++ "." ++ ghIdent7.email,
            refreshToken := bytesToHex (envOk [1]).randBytes }
    ∧ (LoginWithGitHub (envOk [1]) 0 dbGh7 ghIdent7).2.users.length = dbGh7.users.length
    ∧ (∀ v ∈ (LoginWithGitHub (envOk [1]) 0 dbGh7 ghIdent7).2.users,
        v.id = userGh7.id → v.email = ghIdent7.email)
    ∧ (∃ tk ∈ (LoginWithGitHub (envOk [1]) 0 dbGh7 ghIdent7).2.tokens,
        tk.userID = userGh7.id ∧
        tk.tokenHash = HashRefreshToken (bytesToHex (envOk [1]).randBytes)) :=
  c6_federation_precedence (envOk [1]) 0 dbGh7 ghIdent7 userGh7
    (by decide) (by decide) rfl rfl rfl rfl (by decide)

/-- C10: for a stored user whose active flag is false (and whose email and id
are not shared with any active user), password Login with their email fails
with UserNotFound, RefreshToken on a live token they own fails with
UserNotFound (both lookups filter on active = true), yet LoginWithGitHub
with their linked GitHub id succeeds and issues tokens, because
FindByGitHubID does not filter on the active flag. -/
theorem c10_inactive_user_reachable_via_github
    (env : Env) (now : Int) (db : Db) (u : User) (password raw : String)
    (tk : RefreshTokenRec) (gh : GitHubUser)
    (hu : u ∈ db.users) (hinact : u.active = false)
    (hef : env.findEmailFail = false) (hhf : env.findHashFail = false)
    (hrf : env.revokeFail = false) (hif : env.findIdFail = false)
    (hgf : env.findGhFail = false) (hupd : env.updateFail = false)
    (hacc : env.accessFail = false) (hrand : env.randFail = false)
    (hsave : env.saveFail = false)
    (hemailuniq : ∀ v ∈ db.users, v.email = u.email → v.active = false)
    (hiduniq : ∀ v ∈ db.users, v.id = u.id → v.active = false)
    (htk : db.tokens.find? (fun x => x.tokenHash == HashRefreshToken raw) = some tk)
    (howner : tk.userID = u.id)
    (hexp : ¬(tk.expiresAt < now)) (hrev : tk.revokedAt = none)
    (hfirst : db.users.find? (fun v => v.githubID == some gh.id) = some u)
    (hfresh : ∀ x ∈ db.tokens, ¬(x.tokenHash = HashRefreshToken (bytesToHex env.randBytes))) :
    (Login env now db u.email password).1 = .error AuthErr.userNotFound
    ∧ (RefreshTokenCall env now db raw).1 = .error AuthErr.userNotFound
    ∧ (∃ t, (LoginWithGitHub env now db gh).1 = .ok t) := by
  have hFE : FindByEmail env.findEmailFail db u.email = .error .noRows := by
    unfold FindByEmail
    rw [hef]
    have hnone : db.users.find? (fun x => x.email == u.email && x.active) = none := by
      refine List.find?_eq_none.mpr (fun v hv => ?_)
      simp only [Bool.and_eq_true, beq_iff_eq, not_and]
      intro he
      rw [hemailuniq v hv he]
      simp
    simp [hnone]
  refine ⟨?_, ?_, ?_⟩
  · unfold Login
    rw [hFE]
    dsimp only
    simp
  · have hFH : FindByHashRT env.findHashFail db (HashRefreshToken raw) = .ok tk := by
      unfold FindByHashRT
      rw [hhf]
      simp [htk]
    have hRV : RevokeByID env.revokeFail now db tk.id =
        .ok { db with
              tokens := db.tokens.map (fun t =>
                if t.id == tk.id then { t with revokedAt := some now } else t) } := by
      unfold RevokeByID
      rw [hrf]
      simp only [Bool.false_eq_true, if_false]
    have hidnone : db.users.find? (fun v => v.id == tk.userID && v.active) = none := by
      refine List.find?_eq_none.mpr (fun v hv => ?_)
      simp only [Bool.and_eq_true, beq_iff_eq, not_and]
      intro hid
      rw [hiduniq v hv (by rw [hid, howner])]
      simp
    have hFI : FindByID env.findIdFail
        { db with
          tokens := db.tokens.map (fun t =>
            if t.id == tk.id then { t with revokedAt := some now } else t) }
        tk.userID = .error .noRows := by
      unfold FindByID
      rw [hif]
      simp [hidnone]
    unfold RefreshTokenCall
    dsimp only
    rw [hFH]
    dsimp only
    rw [if_neg hexp, hrev]
    simp only [Option.isSome_none, Bool.false_eq_true, if_false]
    rw [hRV]
    dsimp only
    rw [hFI]
  · have hFG : FindByGitHubID env.findGhFail db gh.id = .ok u := by
      unfold FindByGitHubID
      rw [hgf]
      simp [hfirst]
    unfold LoginWithGitHub
    rw [hFG]
    dsimp only
    by_cases he : u.email = gh.email
    · have hbne : (u.email != gh.email) = false := by simp [he]
      rw [hbne]
      simp only [Bool.false_eq_true, if_false]
      rw [generateTokensForUser_ok env now db u hacc hrand hsave hfresh]
      exact ⟨_, rfl⟩
    · have hbne : (u.email != gh.email) = true := bne_iff_ne.mpr he
      rw [hbne]
      simp only [if_true]
      have hU : UpdateUser env.updateFail now db { u with email := gh.email } =
          .ok { db with
                users := db.users.map (fun v =>
                  if v.id == u.id then
                    { v with name := u.name, email := gh.email,
                             password := u.password, active := u.active,
                             githubID := u.githubID, updatedAt := now }
                  else v) } := by
        unfold UpdateUser
        rw [hupd]
        simp only [Bool.false_eq_true, if_false]
      rw [hU]
      dsimp only
      rw [generateTokensForUser_ok env now
          { db with
            users := db.users.map (fun v =>
              if v.id == u.id then
                { v with name := u.name, email := gh.email,
                         password := u.password, active := u.active,
                         githubID := u.githubID, updatedAt := now }
              else v) }
          { u with email := gh.email } hacc hrand hsave (fun x hx => hfresh x hx)]
      exact ⟨_, rfl⟩

/-- Witness for C10 on the deactivated GitHub-linked user. -/
theorem c10_witness :
    (Login (envOk [1]) 0 dbInactGh userInactGh.email "pw").1 = .error AuthErr.userNotFound
    ∧ (RefreshTokenCall (envOk [1]) 0 dbInactGh "rawtok").1 = .error AuthErr.userNotFound
    ∧ (∃ t, (LoginWithGitHub (envOk [1]) 0 dbInactGh ghIdent7b).1 = .ok t) :=
  c10_inactive_user_reachable_via_github (envOk [1]) 0 dbInactGh userInactGh
    "pw" "rawtok" tokenOfInact ghIdent7b
    (by decide) rfl rfl rfl rfl rfl rfl rfl rfl rfl rfl
    (by decide) (by decide) (by decide) rfl (by decide) (by decide)
    (by decide) (by decide)

/-- C1: if a RefreshToken call on some state succeeds with a raw value, then
against the resulting state a second call with the same raw value can never
succeed under any environment or time, and — with a healthy hash lookup —
fails with refreshTokenRevoked, because the first call set revoked_at on the
stored record before completing. -/
theorem c1_refresh_token_single_use
    (env1 env2 : Env) (t1 : Int) (db : Db) (raw a r : String)
    (hok : (RefreshTokenCall env1 t1 db raw).1 = .ok (a, r))
    (hhf2 : env2.findHashFail = false) :
    (∀ env3 t2 p2,
        (RefreshTokenCall env3 t2 (RefreshTokenCall env1 t1 db raw).2.1 raw).1 ≠ .ok p2)
    ∧ (RefreshTokenCall env2 t1 (RefreshTokenCall env1 t1 db raw).2.1 raw).1 =
        .error AuthErr.refreshTokenRevoked := by
  obtain ⟨hhf1, hrf1, hif1, hacc1, hrand1, hsave1, hr, rt, hfind, hexp, hrev,
          ⟨u0, hu0, ha⟩, hfresh1⟩ := RefreshTokenCall_ok_conditions hok
  have hrun1 := RefreshTokenCall_run env1 t1 db raw rt u0 hhf1 hfind hexp hrev
    hrf1 hif1 hu0 hacc1 hrand1 hsave1 hfresh1
  have htokens : (RefreshTokenCall env1 t1 db raw).2.1.tokens =
      db.tokens.map (fun y => if y.id == rt.id then { y with revokedAt := some t1 } else y)
        ++ [{ id := db.nextTokenId, userID := rt.userID,
              tokenHash := HashRefreshToken (bytesToHex env1.randBytes),
              userAgent := env1.userAgent, ipAddress := env1.ipAddress,
              createdAt := t1, expiresAt := t1 + sevenDays, revokedAt := none }] := by
    rw [hrun1]
  have hga : ∀ y : RefreshTokenRec,
      ((fun y => if y.id == rt.id then { y with revokedAt := some t1 } else y) y).tokenHash =
        y.tokenHash := by
    intro y
    by_cases hid : (y.id == rt.id) = true <;> simp [hid]
  have hfindAfter : (RefreshTokenCall env1 t1 db raw).2.1.tokens.find?
      (fun y => y.tokenHash == HashRefreshToken raw) = some { rt with revokedAt := some t1 } := by
    rw [htokens]
    have := find?_map_append_pres hga db.tokens
      [{ id := db.nextTokenId, userID := rt.userID,
         tokenHash := HashRefreshToken (bytesToHex env1.randBytes),
         userAgent := env1.userAgent, ipAddress := env1.ipAddress,
         createdAt := t1, expiresAt := t1 + sevenDays, revokedAt := none }] hfind
    rw [this]
    simp
  constructor
  · intro env3 t2 p2
    exact (RefreshTokenCall_on_revoked env3 t2 _ raw _ hfindAfter rfl).1 p2
  · exact (RefreshTokenCall_on_revoked env2 t1 _ raw _ hfindAfter rfl).2 hhf2 hexp

/-- Witness for C1 on the live-token store: the first call succeeds, the
immediate second call with the same raw value fails with
refreshTokenRevoked. -/
theorem c1_witness :
    (RefreshTokenCall (envOk [2]) 0
        (RefreshTokenCall (envOk [1]) 0 dbLive "rawtok").2.1 "rawtok").1 =
      .error AuthErr.refreshTokenRevoked :=
  (c1_refresh_token_single_use (envOk [1]) (envOk [2]) 0 dbLive "rawtok"
    "jwt.hs256.1.a@x.com" "01" (by decide) rfl).2

/-- C2: on a found, unexpired, unrevoked token the revocation call strictly
precedes every credential-issuing call in the trace, the revocation call
does occur, and whenever the revocation itself succeeded but the call ended
in any error, every row with the consumed id is left revoked in the final
state. -/
theorem c2_revoke_before_issue
    (env : Env) (t : Int) (db : Db) (raw : String) (rt : RefreshTokenRec)
    (hhf : env.findHashFail = false)
    (hfind : db.tokens.find? (fun x => x.tokenHash == HashRefreshToken raw) = some rt)
    (hexp : ¬(rt.expiresAt < t)) (hrev : rt.revokedAt = none) :
    noIssueBeforeRevoke (RefreshTokenCall env t db raw).2.2 = true
    ∧ Ev.revoke rt.id ∈ (RefreshTokenCall env t db raw).2.2
    ∧ (env.revokeFail = false →
        ∀ e, (RefreshTokenCall env t db raw).1 = .error e →
          ∀ x ∈ (RefreshTokenCall env t db raw).2.1.tokens,
            x.id = rt.id → x.revokedAt = some t) := by
  have e1 : FindByHashRT env.findHashFail db (HashRefreshToken raw) = .ok rt := by
    unfold FindByHashRT
    rw [hhf]
    simp [hfind]
  refine ⟨?_, ?_, ?_⟩
  · unfold RefreshTokenCall
    dsimp only
    rw [e1]
    dsimp only
    rw [if_neg hexp, hrev]
    simp only [Option.isSome_none, Bool.false_eq_true, if_false]
    repeat' split
    all_goals simp [noIssueBeforeRevoke]
  · unfold RefreshTokenCall
    dsimp only
    rw [e1]
    dsimp only
    rw [if_neg hexp, hrev]
    simp only [Option.isSome_none, Bool.false_eq_true, if_false]
    repeat' split
    all_goals simp
  · intro hrf
    have e2 : RevokeByID env.revokeFail t db rt.id =
        .ok { db with
              tokens := db.tokens.map (fun y =>
                if y.id == rt.id then { y with revokedAt := some t } else y) } := by
      unfold RevokeByID
      rw [hrf]
      simp only [Bool.false_eq_true, if_false]
    unfold RefreshTokenCall
    dsimp only
    rw [e1]
    dsimp only
    rw [if_neg hexp, hrev]
    simp only [Option.isSome_none, Bool.false_eq_true, if_false]
    rw [e2]
    dsimp only
    repeat' split
    all_goals intro e he x hx hid
    all_goals
      first
        | exact revoked_in_mapped db.tokens rt.id t x (by simpa using hx) hid
        | simp at he

/-- Witness for C2 on the live-token store with a storage failure injected
into the owner lookup: the trace keeps issuance after revocation, and the
consumed row ends revoked although the call failed. -/
theorem c2_witness :
    noIssueBeforeRevoke
        (RefreshTokenCall { envOk [1] with findIdFail := true } 0 dbLive "rawtok").2.2 = true
    ∧ Ev.revoke tokenLive.id ∈
        (RefreshTokenCall { envOk [1] with findIdFail := true } 0 dbLive "rawtok").2.2
    ∧ ∀ x ∈ (RefreshTokenCall { envOk [1] with findIdFail := true } 0 dbLive "rawtok").2.1.tokens,
        x.id = tokenLive.id → x.revokedAt = some 0 := by
  have h := c2_revoke_before_issue { envOk [1] with findIdFail := true } 0 dbLive "rawtok"
    tokenLive rfl (by decide) (by decide) rfl
  exact ⟨h.1, h.2.1,
    h.2.2 rfl (.internalErr "failed to find user") (by decide)⟩

/-- C8: a successful RefreshToken call persists a new record carrying the
same owner as the consumed record and the SHA-256 hex digest of the raw
token returned to the caller; redeeming that returned raw value (healthy
collaborators, fresh randomness, same instant) succeeds and persists a
further record for the same owner. -/
theorem c8_rotation_binding
    (env1 env2 : Env) (t1 : Int) (db : Db) (raw a r : String)
    (hok : (RefreshTokenCall env1 t1 db raw).1 = .ok (a, r))
    (hhf2 : env2.findHashFail = false) (hrf2 : env2.revokeFail = false)
    (hif2 : env2.findIdFail = false) (hacc2 : env2.accessFail = false)
    (hrand2 : env2.randFail = false) (hsave2 : env2.saveFail = false)
    (hfresh2 : ∀ x ∈ (RefreshTokenCall env1 t1 db raw).2.1.tokens,
        ¬(x.tokenHash = HashRefreshToken (bytesToHex env2.randBytes))) :
    ∃ rt, db.tokens.find? (fun x => x.tokenHash == HashRefreshToken raw) = some rt ∧
      (∃ tk ∈ (RefreshTokenCall env1 t1 db raw).2.1.tokens,
        tk.userID = rt.userID ∧ tk.tokenHash = HashRefreshToken r) ∧
      (∃ p2, (RefreshTokenCall env2 t1 (RefreshTokenCall env1 t1 db raw).2.1 r).1 = .ok p2) ∧
      (∃ tk2 ∈ (RefreshTokenCall env2 t1 (RefreshTokenCall env1 t1 db raw).2.1 r).2.1.tokens,
        tk2.userID = rt.userID ∧
        tk2.tokenHash = HashRefreshToken (bytesToHex env2.randBytes)) := by
  obtain ⟨hhf1, hrf1, hif1, hacc1, hrand1, hsave1, hr, rt, hfind, hexp, hrev,
          ⟨u0, hu0, ha⟩, hfresh1⟩ := RefreshTokenCall_ok_conditions hok
  subst hr
  have hrun1 := RefreshTokenCall_run env1 t1 db raw rt u0 hhf1 hfind hexp hrev
    hrf1 hif1 hu0 hacc1 hrand1 hsave1 hfresh1
  have htokens : (RefreshTokenCall env1 t1 db raw).2.1.tokens =
      db.tokens.map (fun y => if y.id == rt.id then { y with revokedAt := some t1 } else y)
        ++ [{ id := db.nextTokenId, userID := rt.userID,
              tokenHash := HashRefreshToken (bytesToHex env1.randBytes),
              userAgent := env1.userAgent, ipAddress := env1.ipAddress,
              createdAt := t1, expiresAt := t1 + sevenDays, revokedAt := none }] := by
    rw [hrun1]
  have husers : (RefreshTokenCall env1 t1 db raw).2.1.users = db.users := by
    rw [hrun1]
  have hpre : (db.tokens.map (fun y =>
      if y.id == rt.id then { y with revokedAt := some t1 } else y)).find?
        (fun y => y.tokenHash == HashRefreshToken (bytesToHex env1.randBytes)) = none := by
    rw [List.find?_map]
    have hnone : db.tokens.find?
        ((fun y => y.tokenHash == HashRefreshToken (bytesToHex env1.randBytes)) ∘
          (fun y => if y.id == rt.id then { y with revokedAt := some t1 } else y)) = none := by
      rw [List.find?_eq_none]
      intro x hx
      by_cases hid : (x.id == rt.id) = true
      · simp only [Function.comp, hid, if_true]
        simpa using hfresh1 x hx
      · simp only [Function.comp, hid, Bool.false_eq_true, if_false]
        simpa using hfresh1 x hx
    rw [hnone]
    rfl
  have hfindNew : (RefreshTokenCall env1 t1 db raw).2.1.tokens.find?
      (fun y => y.tokenHash == HashRefreshToken (bytesToHex env1.randBytes)) =
        some { id := db.nextTokenId, userID := rt.userID,
               tokenHash := HashRefreshToken (bytesToHex env1.randBytes),
               userAgent := env1.userAgent, ipAddress := env1.ipAddress,
               createdAt := t1, expiresAt := t1 + sevenDays, revokedAt := none } := by
    rw [htokens, List.find?_append, hpre]
    simp [List.find?]
  have huser2 : (RefreshTokenCall env1 t1 db raw).2.1.users.find?
      (fun v => v.id == rt.userID && v.active) = some u0 := by
    rw [husers]
    exact hu0
  have hexp2 : ¬(t1 + sevenDays < t1) := by
    simp only [sevenDays]
    omega
  have hrun2 := RefreshTokenCall_run env2 t1 (RefreshTokenCall env1 t1 db raw).2.1
    (bytesToHex env1.randBytes)
    { id := db.nextTokenId, userID := rt.userID,
      tokenHash := HashRefreshToken (bytesToHex env1.randBytes),
      userAgent := env1.userAgent, ipAddress := env1.ipAddress,
      createdAt := t1, expiresAt := t1 + sevenDays, revokedAt := none }
    u0 hhf2 hfindNew hexp2 rfl hrf2 hif2 huser2 hacc2 hrand2 hsave2 hfresh2
  have htok2 : (RefreshTokenCall env2 t1 (RefreshTokenCall env1 t1 db raw).2.1
      (bytesToHex env1.randBytes)).2.1.tokens =
      (RefreshTokenCall env1 t1 db raw).2.1.tokens.map (fun y =>
          if y.id == db.nextTokenId then { y with revokedAt := some t1 } else y)
        ++ [{ id := (RefreshTokenCall env1 t1 db raw).2.1.nextTokenId, userID := rt.userID,
              tokenHash := HashRefreshToken (bytesToHex env2.randBytes),
              userAgent := env2.userAgent, ipAddress := env2.ipAddress,
              createdAt := t1, expiresAt := t1 + sevenDays, revokedAt := none }] := by
    rw [hrun2]
  refine ⟨rt, hfind, ?_, ?_, ?_⟩
  · rw [htokens]
    refine ⟨{ id := db.nextTokenId, userID := rt.userID,
              tokenHash := HashRefreshToken (bytesToHex env1.randBytes),
              userAgent := env1.userAgent, ipAddress := env1.ipAddress,
              createdAt := t1, expiresAt := t1 + sevenDays, revokedAt := none },
            ?_, rfl, rfl⟩
    simp
  · exact ⟨_, by rw [hrun2]⟩
  · rw [htok2]
    refine ⟨{ id := (RefreshTokenCall env1 t1 db raw).2.1.nextTokenId, userID := rt.userID,
              tokenHash := HashRefreshToken (bytesToHex env2.randBytes),
              userAgent := env2.userAgent, ipAddress := env2.ipAddress,
              createdAt := t1, expiresAt := t1 + sevenDays, revokedAt := none },
            ?_, rfl, rfl⟩
    simp

/-- Witness for C8 on the live-token store: the rotated token 01 binds to
user 1 and is itself redeemable for the same user. -/
theorem c8_witness :
    ∃ rt, dbLive.tokens.find? (fun x => x.tokenHash == HashRefreshToken "rawtok") = some rt ∧
      (∃ tk ∈ (RefreshTokenCall (envOk [1]) 0 dbLive "rawtok").2.1.tokens,
        tk.userID = rt.userID ∧ tk.tokenHash = HashRefreshToken "01") ∧
      (∃ p2, (RefreshTokenCall (envOk [2]) 0
          (RefreshTokenCall (envOk [1]) 0 dbLive "rawtok").2.1 "01").1 = .ok p2) ∧
      (∃ tk2 ∈ (RefreshTokenCall (envOk [2]) 0
          (RefreshTokenCall (envOk [1]) 0 dbLive "rawtok").2.1 "01").2.1.tokens,
        tk2.userID = rt.userID ∧
        tk2.tokenHash = HashRefreshToken (bytesToHex (envOk [2]).randBytes)) :=
  c8_rotation_binding (envOk [1]) (envOk [2]) 0 dbLive "rawtok"
    "jwt.hs256.1.a@x.com" "01" (by decide) rfl rfl rfl rfl rfl rfl (by decide)

end PersonalBlog
